import Mathlib

/-!
# Verification of the pdm `import` command core (src/pdm/cli/commands/import_cmd.py)

This file gives a shallow embedding of `Command.do_import` and its helper
`req_get_stem`, together with the collaborators the reconciliation logic needs
(the recursive dictionary merge, the default backend declaration, the
interpreter resolver and the UI echo sink), and proves properties of the
build-system reconciliation, the requirement-stem deduplication and the
scaffolding steps.

Conventions of the embedding:
* A TOML document tree is the inductive `Toml`; tables are ordered
  association lists of key/value pairs, carrying the list of comment lines
  that were attached to the table (tomlkit preserves them).  Arrays in this
  module only ever hold requirement strings, so `Toml.arr` holds a
  `List String`.
* In-place mutation of the document becomes explicit state passing.
* Code that raises becomes a result with an explicit error component:
  `ImpErr.usage` models `PdmUsageError` and carries the message, while
  `ImpErr.typeError` models the `TypeError` the interpreter raises when a
  value that must be a table (mapping) is not one.  Where the source raises
  before mutating, the embedding returns the unmodified document.
* External collaborators: the converter is passed in as a function, the
  interpreter resolver becomes the two numbers `pyMajor`/`pyMinor` plus a
  record of the arguments of each resolver call, and `ui.echo` becomes an
  accumulated list of messages.
-/

/-- A TOML value as manipulated by the import command: strings, booleans,
arrays of requirement strings, and tables.  A table is an ordered list of
key/value pairs together with the comment lines attached inside it. -/
inductive Toml where
  | str (s : String)
  | boolean (b : Bool)
  | arr (xs : List String)
  | table (items : List (String × Toml)) (comments : List String)

/-- Look up the value bound to a key in a table item list (first match). -/
def lookupKey : List (String × Toml) → String → Option Toml
  | [], _ => none
  | (k, v) :: rest, key => if k = key then some v else lookupKey rest key

/-- Membership test for a key, mirroring the Python `in` operator on tables. -/
def containsKey (t : List (String × Toml)) (key : String) : Bool :=
  (lookupKey t key).isSome

/-- Bind a key to a value: replace the first binding of the key if present,
append the pair at the end otherwise.  This mirrors both tomlkit item
assignment and `add` at the places the source uses them. -/
def setKey : List (String × Toml) → String → Toml → List (String × Toml)
  | [], key, v => [(key, v)]
  | (k, v0) :: rest, key, v =>
      if k = key then (k, v) :: rest else (k, v0) :: setKey rest key v

/-- Remove a key and return its former value, mirroring `dict.pop`. -/
def popKey : List (String × Toml) → String → Option Toml × List (String × Toml)
  | [], _ => (none, [])
  | (k, v) :: rest, key =>
      if k = key then (some v, rest)
      else
        let r := popKey rest key
        (r.1, (k, v) :: r.2)

mutual

/-- Structural equality of TOML values, modelling the Python `!=` comparison
between a document item and an imported value (value equality on strings,
booleans and lists; entrywise equality on tables). -/
def tomlBeq : Toml → Toml → Bool
  | Toml.str a, Toml.str b => a == b
  | Toml.boolean a, Toml.boolean b => a == b
  | Toml.arr a, Toml.arr b => a == b
  | Toml.table a ca, Toml.table b cb => tomlItemsBeq a b && ca == cb
  | _, _ => false

/-- Entrywise equality of table item lists. -/
def tomlItemsBeq : List (String × Toml) → List (String × Toml) → Bool
  | [], [] => true
  | (k, v) :: r, (k2, v2) :: r2 => k == k2 && tomlBeq v v2 && tomlItemsBeq r r2
  | _ :: _, [] => false
  | [], _ :: _ => false

end

mutual

/-- Modelled from the spec: the recursive value merge performed by
`merge_dictionary` (pdm.cli.utils, not under src/).  For a key present on
both sides, two tables merge recursively, sequence values are appended to
the existing sequence (the spec describes the branch (c) merge as additive:
existing requirement entries are untouched, new ones appended), and any
other value overwrites the existing one. -/
def mergeValue : Toml → Toml → Toml
  | Toml.table ts cs, Toml.table is2 _ => Toml.table (mergeItems ts is2) cs
  | Toml.arr xs, Toml.arr ys => Toml.arr (xs ++ ys)
  | _, v => v

/-- Modelled from the spec: `merge_dictionary` over the item lists of two
tables.  Each input key is processed in order: absent keys are inserted at
the end of the target, present keys are combined with `mergeValue`. -/
def mergeItems : List (String × Toml) → List (String × Toml) → List (String × Toml)
  | ts, [] => ts
  | ts, (k, v) :: rest => mergeItems (mergeKey ts k v) rest

/-- Merge a single key/value pair into a target item list: combine with the
first existing binding of the key, or append the pair at the end. -/
def mergeKey : List (String × Toml) → String → Toml → List (String × Toml)
  | [], k, v => [(k, v)]
  | (k0, v0) :: rest, k, v =>
      if k0 = k then (k0, mergeValue v0 v) :: rest
      else (k0, v0) :: mergeKey rest k v

end

/-! ## The requirement stem

`req_get_stem` first deletes every space character (`re.sub(" ", "", stem)`)
and then deletes the leftmost match of the pattern
`(\[[^]]+\])?([<=>~]+[0-9.]+$)`: an optional bracketed extras group
immediately followed by one or more of the characters `<`, `=`, `>`, `~`
and a non-empty run of digits and dots anchored at the end of the string
(Python `$` also matches just before a single trailing newline).  Because
the pattern is anchored, at most one match exists, so replacing every match
equals removing the leftmost one. -/

/-- Character class `[<=>~]` of the version-constraint pattern. -/
def isOpChar (c : Char) : Bool :=
  c == '<' || c == '=' || c == '>' || c == '~'

/-- Character class `[0-9.]` of the version-constraint pattern. -/
def isVerChar (c : Char) : Bool :=
  c.isDigit || c == '.'

/-- Does the Python `$` anchor match when this suffix remains?  `$` matches
at the end of the input and just before a trailing final newline. -/
def dollarOnly : List Char → Bool
  | [] => true
  | [c] => c == '\n'
  | _ => false

/-- After a non-empty run of `[0-9.]` characters: consume further run
characters, then require the `$` anchor; returns the unmatched leftover. -/
def verCont : List Char → Option (List Char)
  | [] => some []
  | c :: rest =>
      if isVerChar c then verCont rest
      else if dollarOnly (c :: rest) then some (c :: rest)
      else none

/-- Match `[0-9.]+$` at this suffix; returns the unmatched leftover. -/
def verDollar : List Char → Option (List Char)
  | [] => none
  | c :: rest => if isVerChar c then verCont rest else none

/-- After a non-empty run of `[<=>~]` characters: consume further run
characters, then match `[0-9.]+$`. -/
def opsCont : List Char → Option (List Char)
  | [] => none
  | c :: rest => if isOpChar c then opsCont rest else verDollar (c :: rest)

/-- Match `[<=>~]+[0-9.]+$` at this suffix; returns the unmatched leftover. -/
def opsVer : List Char → Option (List Char)
  | [] => none
  | c :: rest => if isOpChar c then opsCont rest else none

/-- Scan the bracket group content (`[^]]+`) up to the first `]`; returns
what follows the `]`.  The content must be non-empty, which the caller
checks on the first character. -/
def bracketRest : List Char → Option (List Char)
  | [] => none
  | c :: rest => if c = ']' then some rest else bracketRest rest

/-- Match the whole pattern `(\[[^]]+\])?([<=>~]+[0-9.]+$)` at this suffix.
At a `[` the optional group must be taken (a `[` can not start the `[<=>~]+`
part); anywhere else the group is empty. -/
def stemMatchAt : List Char → Option (List Char)
  | [] => none
  | c :: rest =>
      if c = '[' then
        match rest with
        | [] => none
        | c2 :: rest2 =>
            if c2 = ']' then none
            else match bracketRest rest2 with
                 | some after => opsVer after
                 | none => none
      else opsVer (c :: rest)

/-- Delete the leftmost match of the version-constraint pattern: try every
start position from the left; on the first successful match keep the prefix
scanned so far plus the leftover after the match. -/
def stripVersionSuffix : List Char → List Char
  | [] => []
  | c :: rest =>
      match stemMatchAt (c :: rest) with
      | some leftover => leftover
      | none => c :: stripVersionSuffix rest

/-- Delete every space character, modelling `re.sub(" ", "", stem)`. -/
def removeSpaces (s : String) : String :=
  String.mk (s.data.filter (fun c => c != ' '))

/-- Extract the "stem" of a requirement, that is, the base package name:
delete spaces, then delete the trailing version-constraint suffix
(with its optional bracketed extras group). -/
def req_get_stem (req : String) : String :=
  String.mk (stripVersionSuffix (removeSpaces req).data)

/-- Follows the words of the spec: normalising whitespace strips all
whitespace from the requirement string (the stem description in the spec
says "strip all whitespace"), used to compare the stated stem property
with the code. -/
def normalize_whitespace (s : String) : String :=
  String.mk (s.data.filter (fun c => !c.isWhitespace))

/-! ## The import pipeline

`Command.do_import` (minus the format dispatcher, whose outcome is the
converter function passed in below) as explicit state passing over the
pyproject document. -/

/-- The options namespace handed to the converter: the `dev` flag and the
target dependency group, as built by `argparse.Namespace(dev=False,
group=None)` when no options are given. -/
structure ImportOptions where
  dev : Bool
  group : Option String
deriving Repr, DecidableEq

/-- The substitute namespace `argparse.Namespace(dev=False, group=None)`
built when `do_import` is called with `options=None`. -/
def default_options : ImportOptions := ⟨false, none⟩

/-- Modelled from the spec: `DEFAULT_BACKEND.build_system()`
(pdm.models.backends, not under src/) produces the canonical fixed
`requires`/`build-backend` pair describing the own backend of this tool. -/
def DEFAULT_BACKEND_build_system : Toml :=
  Toml.table [("requires", Toml.arr ["pdm-backend"]),
              ("build-backend", Toml.str "pdm.backend")] []

/-- Render a TOML value inside an f-string, as Python `str()` does at the
echo and error sites of the source: a string renders as its value, an array
as a bracketed quoted list.  (A table renders as its TOML text in tomlkit;
no property in this file inspects a message containing a table.) -/
def renderToml : Toml → String
  | Toml.str s => s
  | Toml.boolean b => if b then "True" else "False"
  | Toml.arr xs =>
      "[" ++ String.intercalate ", " (xs.map (fun s => "\"" ++ s ++ "\"")) ++ "]"
  | Toml.table _ _ => "\x7b...\x7d"

/-- Pop the reserved keys `-build-requires` and `-build-backend` (in this
order) out of the imported project data into the build-system declaration;
missing keys are not errors. -/
def extract_buildsystem (project_data : List (String × Toml)) :
    List (String × Toml) × List (String × Toml) :=
  let r1 := popKey project_data "-build-requires"
  let r2 := popKey r1.2 "-build-backend"
  let bsd :=
    (match r1.1 with | some v => [("build-requires", v)] | none => []) ++
    (match r2.1 with | some v => [("build-backend", v)] | none => [])
  (r2.2, bsd)

/-- Ensure `tool.pdm` exists: if `tool` is missing, or is a table without a
`pdm` key, bind `tool.pdm` to a fresh empty table.  A non-table `tool`
value makes the source raise `TypeError` (at the membership test or at the
subsequent indexing), modelled as `none`. -/
def scaffold_tool (p : List (String × Toml)) : Option (List (String × Toml)) :=
  match lookupKey p "tool" with
  | none =>
      some (setKey p "tool" (Toml.table [("pdm", Toml.table [] [])] []))
  | some (Toml.table titems tcs) =>
      if containsKey titems "pdm" then some p
      else some (setKey p "tool" (Toml.table (setKey titems "pdm" (Toml.table [] [])) tcs))
  | some _ => none

/-- Normalise a legacy string-valued `tool.pdm.build` key into the
structured `setup-script`/`run-setuptools` table.  A non-table `tool.pdm`
value makes the source raise `TypeError` (here or at the settings merge),
modelled as `none`. -/
def normalize_build (p : List (String × Toml)) : Option (List (String × Toml)) :=
  match lookupKey p "tool" with
  | some (Toml.table titems tcs) =>
      match lookupKey titems "pdm" with
      | some (Toml.table pdmItems pdmCs) =>
          match lookupKey pdmItems "build" with
          | some (Toml.str s) =>
              some (setKey p "tool" (Toml.table
                (setKey titems "pdm" (Toml.table
                  (setKey pdmItems "build" (Toml.table
                    [("setup-script", Toml.str s),
                     ("run-setuptools", Toml.boolean true)] []))
                  pdmCs))
                tcs))
          | _ => some p
      | _ => none
  | _ => none

/-- The two comment lines attached above a freshly created `project` table. -/
def project_comments : List String :=
  ["PEP 621 project metadata", "See https://www.python.org/dev/peps/pep-0621/"]

/-- Ensure the `project` table exists; when newly created it carries the two
explanatory comment lines. -/
def scaffold_project (p : List (String × Toml)) : List (String × Toml) :=
  if containsKey p "project" then p
  else setKey p "project" (Toml.table [] project_comments)

/-- `merge_dictionary(pyproject[key], input)`: merge the input items into
the table bound to `key` in place.  The merge is defined on mappings; a
non-table target makes the source raise, modelled as `none`. -/
def merge_into_key (p : List (String × Toml)) (key : String)
    (input : List (String × Toml)) : Option (List (String × Toml)) :=
  match lookupKey p key with
  | some (Toml.table items cs) =>
      some (setKey p key (Toml.table (mergeItems items input) cs))
  | _ => none

/-- `merge_dictionary(pyproject["tool"]["pdm"], settings)`: merge the
settings into the nested `tool.pdm` table. -/
def merge_into_tool_pdm (p : List (String × Toml)) (settings : List (String × Toml)) :
    Option (List (String × Toml)) :=
  match lookupKey p "tool" with
  | some (Toml.table titems tcs) =>
      match lookupKey titems "pdm" with
      | some (Toml.table pdmItems pdmCs) =>
          some (setKey p "tool" (Toml.table
            (setKey titems "pdm" (Toml.table (mergeItems pdmItems settings) pdmCs)) tcs))
      | _ => none
  | _ => none

/-- Lines 86-99 of the source: scaffolding of `tool.pdm` and `project`,
legacy build-key normalisation, then the metadata and settings merges. -/
def scaffold_and_merge (p : List (String × Toml))
    (project_data settings : List (String × Toml)) : Option (List (String × Toml)) :=
  (scaffold_tool p).bind fun p1 =>
  (normalize_build p1).bind fun p2 =>
  (merge_into_key (scaffold_project p2) "project" project_data).bind fun p3 =>
  merge_into_tool_pdm p3 settings

/-- Message of the usage error raised when no `build-system` table exists
and the import supplies less than the full backend/requires pair. -/
def msg_fill_manually : String :=
  "Can not create [\"build-system\"] section in pyproject.toml with selected import method, please fill it manually."

/-- Message of the usage error raised when the existing `build-system`
table lacks `requires` or `build-backend`. -/
def msg_incomplete : String :=
  "Projects [\"build-system\"] section is incomplete, do not know how to proceed."

/-- Message of the usage error raised when the existing and the imported
build backends disagree; it interpolates the found and the expected value. -/
def msg_backend_conflict (found expected : String) : String :=
  "Projects [\"build-system\"] section and the selected import method disagree on the build-backend value (found "
    ++ found ++ ", expected " ++ expected ++ "), do not know how to proceed."

/-- Notice naming the (new or updated) build requirement list. -/
def msg_build_deps (rendered : String) : String :=
  "The projects build dependencies have been set to " ++ rendered

/-- Notice naming the newly created build backend. -/
def msg_build_backend (rendered : String) : String :=
  "The projects build backend has been set to " ++ rendered

/-- Lines 131-137 of the source: the deduplicated new-requirements list.
An imported requirement is dropped exactly when some existing requirement
has an equal stem (the inner loop with its `break`/`else`); the survivors
keep their order. -/
def build_req_new (existing newList : List String) : List String :=
  newList.filter (fun r => !(existing.any (fun e => req_get_stem e == req_get_stem r)))

/-- Outcome of the build-system reconciliation step: the updated document
plus the notices echoed, or a raised error. -/
inductive BsOutcome where
  | ok (pyproject : List (String × Toml)) (echoes : List String)
  | usageError (msg : String)
  | typeError

/-- Lines 100-143 of the source: the four build-system reconciliation
branches.  `reset_backend` overwrites with the default backend declaration;
with no existing table the full imported pair creates one (else a usage
error); with an existing table and a fully supplied import the backends
must agree and the imported requirements are deduplicated by stem and
appended; otherwise nothing happens.  `typeError` marks the places where
the source would raise `TypeError` on a value of the wrong shape. -/
def reconcile_build_system (p : List (String × Toml)) (bsd : List (String × Toml))
    (reset_backend : Bool) : BsOutcome :=
  if reset_backend then
    BsOutcome.ok (setKey p "build-system" DEFAULT_BACKEND_build_system) []
  else if !containsKey p "build-system" then
    match lookupKey bsd "build-backend", lookupKey bsd "build-requires" with
    | some backend, some reqs =>
        let pybs := mergeItems [] [("requires", reqs), ("build-backend", backend)]
        BsOutcome.ok (setKey p "build-system" (Toml.table pybs []))
          [msg_build_deps (renderToml ((lookupKey pybs "requires").getD (Toml.arr []))),
           msg_build_backend (renderToml ((lookupKey pybs "build-backend").getD (Toml.arr [])))]
    | _, _ => BsOutcome.usageError msg_fill_manually
  else
    match lookupKey bsd "build-backend", lookupKey bsd "build-requires" with
    | some newBackend, some newReqs =>
        match lookupKey p "build-system" with
        | some (Toml.table pybs pybsCs) =>
            if !(containsKey pybs "requires" && containsKey pybs "build-backend") then
              BsOutcome.usageError msg_incomplete
            else
              match lookupKey pybs "build-backend" with
              | some found =>
                  if !tomlBeq found newBackend then
                    BsOutcome.usageError
                      (msg_backend_conflict (renderToml found) (renderToml newBackend))
                  else
                    match lookupKey pybs "requires", newReqs with
                    | some (Toml.arr existing), Toml.arr newList =>
                        if (build_req_new existing newList).isEmpty then BsOutcome.ok p []
                        else
                          BsOutcome.ok (setKey p "build-system" (Toml.table
                              (mergeItems pybs [("requires", Toml.arr (build_req_new existing newList))])
                              pybsCs))
                            [msg_build_deps (renderToml ((lookupKey
                              (mergeItems pybs [("requires", Toml.arr (build_req_new existing newList))])
                              "requires").getD (Toml.arr [])))]
                    | _, _ => BsOutcome.typeError
              | none => BsOutcome.usageError msg_incomplete
        | some _ => BsOutcome.typeError
        | none => BsOutcome.typeError
    | _, _ => BsOutcome.ok p []

/-- Notice naming the requires-python value that was chosen. -/
def msg_requires_python (version : String) : String :=
  "The projects [primary]requires-python[/] has been set to [primary]>=" ++ version
    ++ "[/]. You can change it later if necessary."

/-- `f"{python.major}.{python.minor}"`. -/
def python_version_string (pyMajor pyMinor : Nat) : String :=
  toString pyMajor ++ "." ++ toString pyMinor

/-- Outcome of the requires-python default step: the updated document, the
notices echoed, and the argument of each interpreter-resolver call. -/
inductive PyOutcome where
  | ok (pyproject : List (String × Toml)) (echoes : List String) (resolverArgs : List Bool)
  | typeError

/-- Lines 145-152 of the source: if `project` lacks a `requires-python`
key, resolve the interpreter (`resolve_interpreter(in_import=True)`, whose
result is the two numbers passed in), set `requires-python` and echo a
notice; otherwise do nothing and resolve no interpreter. -/
def requires_python_step (p : List (String × Toml)) (pyMajor pyMinor : Nat) : PyOutcome :=
  match lookupKey p "project" with
  | some (Toml.table pr prCs) =>
      if containsKey pr "requires-python" then PyOutcome.ok p [] []
      else
        let python_version := python_version_string pyMajor pyMinor
        PyOutcome.ok
          (setKey p "project" (Toml.table
            (setKey pr "requires-python" (Toml.str (">=" ++ python_version))) prCs))
          [msg_requires_python python_version]
          [true]
  | _ => PyOutcome.typeError

/-- The error of an aborted import: a `PdmUsageError` with its message, or
a `TypeError` raised on a value of an unexpected shape. -/
inductive ImpErr where
  | usage (msg : String)
  | typeError
deriving Repr, DecidableEq

/-- Result of a `do_import` run: the final document (for an aborted run,
the document as of the last completed step; the source leaves a partially
mutated in-memory document and persists nothing), the echoed notices, the
interpreter-resolver calls made, the options namespace handed to the
converter, and the error that aborted the run, if any. -/
structure ImportResult where
  pyproject : List (String × Toml)
  echoes : List String
  resolverArgs : List Bool
  convertArg : ImportOptions
  error : Option ImpErr

/-- `Command.do_import`: substitute the default options namespace when none
is given, run the converter, extract the build-system declaration, scaffold
and merge, reconcile the build system, then default `requires-python`. -/
def do_import (pyproject : List (String × Toml))
    (convert : ImportOptions → List (String × Toml) × List (String × Toml))
    (options : Option ImportOptions := none)
    (reset_backend : Bool := true)
    (pyMajor : Nat := 0) (pyMinor : Nat := 0) : ImportResult :=
  let opts := options.getD default_options
  let conv := convert opts
  let extracted := extract_buildsystem conv.1
  match scaffold_and_merge pyproject extracted.1 conv.2 with
  | none => ⟨pyproject, [], [], opts, some ImpErr.typeError⟩
  | some p1 =>
      match reconcile_build_system p1 extracted.2 reset_backend with
      | BsOutcome.usageError m => ⟨p1, [], [], opts, some (ImpErr.usage m)⟩
      | BsOutcome.typeError => ⟨p1, [], [], opts, some ImpErr.typeError⟩
      | BsOutcome.ok p2 es =>
          match requires_python_step p2 pyMajor pyMinor with
          | PyOutcome.typeError => ⟨p2, es, [], opts, some ImpErr.typeError⟩
          | PyOutcome.ok p3 es2 calls => ⟨p3, es ++ es2, calls, opts, none⟩

/-! ## Association-list frame lemmas -/

theorem lookup_setKey_self (t : List (String × Toml)) (k : String) (v : Toml) :
    lookupKey (setKey t k v) k = some v := by
  induction t with
  | nil => simp [setKey, lookupKey]
  | cons hd tl ih =>
      obtain ⟨k0, v0⟩ := hd
      by_cases h : k0 = k <;> simp [setKey, lookupKey, h, ih]

theorem lookup_setKey_ne (t : List (String × Toml)) (k k2 : String) (v : Toml)
    (h : k2 ≠ k) : lookupKey (setKey t k v) k2 = lookupKey t k2 := by
  induction t with
  | nil => simp [setKey, lookupKey, Ne.symm h]
  | cons hd tl ih =>
      obtain ⟨k0, v0⟩ := hd
      by_cases hk : k0 = k
      · subst hk
        simp [setKey, lookupKey, Ne.symm h]
      · by_cases hq : k0 = k2 <;> simp [setKey, lookupKey, hk, hq, ih, h]

theorem popKey_fst (t : List (String × Toml)) (k : String) :
    (popKey t k).1 = lookupKey t k := by
  induction t with
  | nil => simp [popKey, lookupKey]
  | cons hd tl ih =>
      obtain ⟨k0, v0⟩ := hd
      by_cases h : k0 = k <;> simp [popKey, lookupKey, h, ih]

theorem popKey_lookup_ne (t : List (String × Toml)) (k k2 : String) (h : k2 ≠ k) :
    lookupKey (popKey t k).2 k2 = lookupKey t k2 := by
  induction t with
  | nil => simp [popKey, lookupKey]
  | cons hd tl ih =>
      obtain ⟨k0, v0⟩ := hd
      by_cases hk : k0 = k
      · subst hk
        simp [popKey, lookupKey, Ne.symm h]
      · by_cases hq : k0 = k2 <;> simp [popKey, lookupKey, hk, hq, ih, h]

/-! ## Frame lemmas for the pipeline steps -/

theorem scaffold_tool_preserves {p p' : List (String × Toml)} {k : String}
    (hk : k ≠ "tool") (h : scaffold_tool p = some p') :
    lookupKey p' k = lookupKey p k := by
  unfold scaffold_tool at h
  split at h
  · cases h
    exact lookup_setKey_ne _ _ _ _ hk
  · split at h
    · cases h
      rfl
    · cases h
      exact lookup_setKey_ne _ _ _ _ hk
  · cases h

theorem normalize_build_preserves {p p' : List (String × Toml)} {k : String}
    (hk : k ≠ "tool") (h : normalize_build p = some p') :
    lookupKey p' k = lookupKey p k := by
  unfold normalize_build at h
  split at h
  · split at h
    · split at h
      · cases h
        exact lookup_setKey_ne _ _ _ _ hk
      · cases h
        rfl
    · cases h
  · cases h

theorem scaffold_project_preserves (p : List (String × Toml)) {k : String}
    (hk : k ≠ "project") :
    lookupKey (scaffold_project p) k = lookupKey p k := by
  unfold scaffold_project
  split
  · rfl
  · exact lookup_setKey_ne _ _ _ _ hk

theorem merge_into_key_preserves {p p' input : List (String × Toml)} {key k : String}
    (hk : k ≠ key) (h : merge_into_key p key input = some p') :
    lookupKey p' k = lookupKey p k := by
  unfold merge_into_key at h
  split at h
  · cases h
    exact lookup_setKey_ne _ _ _ _ hk
  · cases h

theorem merge_into_tool_pdm_preserves {p p' settings : List (String × Toml)} {k : String}
    (hk : k ≠ "tool") (h : merge_into_tool_pdm p settings = some p') :
    lookupKey p' k = lookupKey p k := by
  unfold merge_into_tool_pdm at h
  split at h
  · split at h
    · cases h
      exact lookup_setKey_ne _ _ _ _ hk
    · cases h
  · cases h

theorem scaffold_and_merge_preserves {p pd st p₁ : List (String × Toml)} {k : String}
    (hk1 : k ≠ "tool") (hk2 : k ≠ "project")
    (h : scaffold_and_merge p pd st = some p₁) :
    lookupKey p₁ k = lookupKey p k := by
  unfold scaffold_and_merge at h
  rcases Option.bind_eq_some.mp h with ⟨a, ha, h⟩
  rcases Option.bind_eq_some.mp h with ⟨b, hb, h⟩
  rcases Option.bind_eq_some.mp h with ⟨c, hc, h⟩
  calc lookupKey p₁ k
      = lookupKey c k := merge_into_tool_pdm_preserves hk1 h
    _ = lookupKey (scaffold_project b) k := merge_into_key_preserves hk2 hc
    _ = lookupKey b k := scaffold_project_preserves b hk2
    _ = lookupKey a k := normalize_build_preserves hk1 hb
    _ = lookupKey p k := scaffold_tool_preserves hk1 ha

theorem reconcile_ok_preserves {p bsd p' : List (String × Toml)} {r : Bool}
    {es : List String} {k : String} (hk : k ≠ "build-system")
    (h : reconcile_build_system p bsd r = BsOutcome.ok p' es) :
    lookupKey p' k = lookupKey p k := by
  unfold reconcile_build_system at h
  repeat' split at h
  all_goals cases h
  all_goals first
    | rfl
    | exact lookup_setKey_ne _ _ _ _ hk

theorem requires_python_preserves {p p' : List (String × Toml)} {M m : Nat}
    {es : List String} {calls : List Bool} {k : String} (hk : k ≠ "project")
    (h : requires_python_step p M m = PyOutcome.ok p' es calls) :
    lookupKey p' k = lookupKey p k := by
  unfold requires_python_step at h
  split at h
  · split at h
    · cases h
      rfl
    · cases h
      exact lookup_setKey_ne _ _ _ _ hk
  · cases h

/-! ## C1: the reset branch -/

/-- C1: for every manifest and every prior content of its build-system
table, a `do_import` run with `reset_backend = true` that completes sets
`manifest["build-system"]` to exactly `DEFAULT_BACKEND.build_system()`,
regardless of prior content and of what build-system fields the import
supplies; the reset branch takes priority over every other build-system
reconciliation branch. -/
theorem do_import_reset_overwrites_build_system
    (p : List (String × Toml))
    (convert : ImportOptions → List (String × Toml) × List (String × Toml))
    (options : Option ImportOptions) (M m : Nat)
    (h : (do_import p convert options true M m).error = none) :
    lookupKey (do_import p convert options true M m).pyproject "build-system"
      = some DEFAULT_BACKEND_build_system := by
  unfold do_import at h ⊢
  cases hs : scaffold_and_merge p (extract_buildsystem (convert (options.getD default_options)).1).1
      (convert (options.getD default_options)).2 with
  | none => simp [hs] at h
  | some p1 =>
      simp only [hs] at h ⊢
      rw [show reconcile_build_system p1
            (extract_buildsystem (convert (options.getD default_options)).1).2 true
          = BsOutcome.ok (setKey p1 "build-system" DEFAULT_BACKEND_build_system) [] from rfl]
        at h ⊢
      cases hp : requires_python_step (setKey p1 "build-system" DEFAULT_BACKEND_build_system) M m with
      | typeError => simp [hp] at h
      | ok p3 es2 calls =>
          simp only [hp]
          rw [requires_python_preserves (by decide) hp]
          exact lookup_setKey_self _ _ _

/-- Closed instance of C1: an empty manifest and a converter producing no
data; the run completes and the build-system table equals the default
backend declaration. -/
theorem do_import_reset_overwrites_build_system_witness :
    (do_import [] (fun _ => ([], [])) none true 3 11).error = none ∧
    lookupKey (do_import [] (fun _ => ([], [])) none true 3 11).pyproject "build-system"
      = some DEFAULT_BACKEND_build_system := by
  have herr : (do_import [] (fun _ => ([], [])) none true 3 11).error = none := by
    simp [do_import, scaffold_and_merge, scaffold_tool, normalize_build, scaffold_project,
      merge_into_key, merge_into_tool_pdm, extract_buildsystem, popKey, lookupKey, setKey,
      containsKey, mergeItems, reconcile_build_system, requires_python_step]
  exact ⟨herr, do_import_reset_overwrites_build_system [] (fun _ => ([], [])) none 3 11 herr⟩

/-! ## C10: the default options namespace -/

theorem do_import_convertArg (p : List (String × Toml))
    (convert : ImportOptions → List (String × Toml) × List (String × Toml))
    (options : Option ImportOptions) (r : Bool) (M m : Nat) :
    (do_import p convert options r M m).convertArg = options.getD default_options := by
  simp only [do_import]
  repeat' split
  all_goals rfl

/-- C10: calling `do_import` with `options = none` substitutes the default
namespace `dev=False, group=None` before invoking the converter: the whole
run equals the run with that namespace passed explicitly, and the converter
is invoked with exactly that namespace, so a library call without options
behaves as a non-dev import into the default dependency group. -/
theorem do_import_none_options_uses_defaults
    (p : List (String × Toml))
    (convert : ImportOptions → List (String × Toml) × List (String × Toml))
    (r : Bool) (M m : Nat) :
    do_import p convert none r M m = do_import p convert (some ⟨false, none⟩) r M m ∧
    (do_import p convert none r M m).convertArg = ⟨false, none⟩ :=
  ⟨rfl, do_import_convertArg p convert none r M m⟩

/-! ## C7: whitespace sensitivity of the stem -/

theorem removeSpaces_idem (r : String) : removeSpaces (removeSpaces r) = removeSpaces r := by
  unfold removeSpaces
  simp [List.filter_filter]

/-- C7 counterexample: the stem function is not insensitive to arbitrary
whitespace, because the source strips only the space character before
removing the version-constraint suffix: on a requirement containing a tab,
stripping all whitespace first changes the stem. -/
theorem req_get_stem_not_whitespace_insensitive :
    req_get_stem (normalize_whitespace "foo\t>=1.0") ≠ req_get_stem "foo\t>=1.0" := by
  decide

/-- C7 (amended): the stem function is insensitive to space characters:
stripping spaces from the requirement first does not change its stem, since
the stem computation itself begins by deleting every space (only spaces,
not all whitespace). -/
theorem req_get_stem_space_insensitive (r : String) :
    req_get_stem (removeSpaces r) = req_get_stem r := by
  unfold req_get_stem
  rw [removeSpaces_idem]

/-! ## C8: extras-insensitivity of the stem -/

/-- C8 counterexample: the stem is not always the bare package name with
the bracketed extras group stripped: when no version constraint follows,
the extras group is kept, so the stem of "foo[extra]" differs from "foo". -/
theorem req_get_stem_keeps_extras_without_version :
    req_get_stem "foo[extra]" ≠ "foo" := by decide

/-- C8 (amended): the stem strips a bracketed extras group only when it is
immediately followed by a version-constraint suffix: the stems of
"foo[extra]>=1.2.3" and "foo>=1.2.3" both equal "foo", the stem of "foo" is
"foo" (nothing to strip), while the stem of "foo[extra]" (extras with no
version constraint) keeps the extras group. -/
theorem req_get_stem_extras_examples :
    req_get_stem "foo[extra]>=1.2.3" = "foo" ∧
    req_get_stem "foo>=1.2.3" = "foo" ∧
    req_get_stem "foo" = "foo" ∧
    req_get_stem "foo[extra]" = "foo[extra]" := by decide

/-! ## C6: the requires-python default -/

theorem mention_infix (pre mid suf : String) :
    mid.data <:+: (pre ++ mid ++ suf).data := by
  refine ⟨pre.data, suf.data, ?_⟩
  simp [String.data_append]

theorem msg_requires_python_mentions (v : String) :
    (">=" ++ v).data <:+: (msg_requires_python v).data := by
  have hA : ("The projects [primary]requires-python[/] has been set to [primary]>=" : String).data
      = ("The projects [primary]requires-python[/] has been set to [primary]" : String).data
        ++ (">=" : String).data := by decide
  refine ⟨("The projects [primary]requires-python[/] has been set to [primary]").data,
          ("[/]. You can change it later if necessary.").data, ?_⟩
  unfold msg_requires_python
  simp [String.data_append, hA]

/-- C6: if the project table lacks a `requires-python` key, the
requires-python step of `do_import` resolves the active interpreter
(passing the importing-context flag `in_import=True`, recorded as the
resolver-call argument) and sets `requires-python` to the string
`>=major.minor` of that interpreter, leaving every other project key
unchanged and echoing one notice that contains the chosen value; if the key
is already present, the document is untouched and no resolver call at all
is made. -/
theorem requires_python_step_spec
    (p pr : List (String × Toml)) (prCs : List String) (M m : Nat)
    (hpr : lookupKey p "project" = some (Toml.table pr prCs)) :
    (containsKey pr "requires-python" = false →
      ∃ p2 msg, requires_python_step p M m = PyOutcome.ok p2 [msg] [true] ∧
        (∃ pr2, lookupKey p2 "project" = some (Toml.table pr2 prCs) ∧
          lookupKey pr2 "requires-python"
            = some (Toml.str (">=" ++ python_version_string M m)) ∧
          ∀ k, k ≠ "requires-python" → lookupKey pr2 k = lookupKey pr k) ∧
        (">=" ++ python_version_string M m).data <:+: msg.data) ∧
    (containsKey pr "requires-python" = true →
      requires_python_step p M m = PyOutcome.ok p [] []) := by
  constructor
  · intro habs
    refine ⟨setKey p "project" (Toml.table
        (setKey pr "requires-python" (Toml.str (">=" ++ python_version_string M m))) prCs),
      msg_requires_python (python_version_string M m), ?_, ?_, ?_⟩
    · unfold requires_python_step
      rw [hpr]
      simp [habs]
    · refine ⟨setKey pr "requires-python" (Toml.str (">=" ++ python_version_string M m)),
        lookup_setKey_self _ _ _, lookup_setKey_self _ _ _, ?_⟩
      intro k hk
      exact lookup_setKey_ne _ _ _ _ hk
    · exact msg_requires_python_mentions (python_version_string M m)
  · intro hpres
    unfold requires_python_step
    rw [hpr]
    simp [hpres]

/-- Closed instance of C6: a concrete project table without
`requires-python`, checked against interpreter version 3.11. -/
theorem requires_python_step_spec_witness :
    lookupKey [("project", Toml.table [("name", Toml.str "pkg")] [])] "project"
      = some (Toml.table [("name", Toml.str "pkg")] []) ∧
    ((containsKey [("name", Toml.str "pkg")] "requires-python" = false →
      ∃ p2 msg, requires_python_step [("project", Toml.table [("name", Toml.str "pkg")] [])] 3 11
          = PyOutcome.ok p2 [msg] [true] ∧
        (∃ pr2, lookupKey p2 "project" = some (Toml.table pr2 []) ∧
          lookupKey pr2 "requires-python"
            = some (Toml.str (">=" ++ python_version_string 3 11)) ∧
          ∀ k, k ≠ "requires-python" →
            lookupKey pr2 k = lookupKey [("name", Toml.str "pkg")] k) ∧
        (">=" ++ python_version_string 3 11).data <:+: msg.data) ∧
    (containsKey [("name", Toml.str "pkg")] "requires-python" = true →
      requires_python_step [("project", Toml.table [("name", Toml.str "pkg")] [])] 3 11
        = PyOutcome.ok [("project", Toml.table [("name", Toml.str "pkg")] [])] [] [])) :=
  ⟨rfl, requires_python_step_spec [("project", Toml.table [("name", Toml.str "pkg")] [])]
    [("name", Toml.str "pkg")] [] 3 11 rfl⟩

/-! ## C2: backend conflict detection -/

theorem extract_buildsystem_lookups (pd : List (String × Toml)) :
    lookupKey (extract_buildsystem pd).2 "build-requires" = lookupKey pd "-build-requires" ∧
    lookupKey (extract_buildsystem pd).2 "build-backend" = lookupKey pd "-build-backend" := by
  have h1 := popKey_fst pd "-build-requires"
  have h2 := popKey_fst (popKey pd "-build-requires").2 "-build-backend"
  have h3 := popKey_lookup_ne pd "-build-requires" "-build-backend" (by decide)
  simp only [extract_buildsystem]
  cases hq1 : (popKey pd "-build-requires").1 <;>
    cases hq2 : (popKey (popKey pd "-build-requires").2 "-build-backend").1 <;>
      simp_all [lookupKey]

theorem msg_backend_conflict_mentions (a b : String) :
    a.data <:+: (msg_backend_conflict a b).data ∧
    b.data <:+: (msg_backend_conflict a b).data := by
  constructor
  · refine ⟨("Projects [\"build-system\"] section and the selected import method disagree on the build-backend value (found ").data,
      (", expected ").data ++ b.data ++ ("), do not know how to proceed.").data, ?_⟩
    simp [msg_backend_conflict, String.data_append]
  · refine ⟨("Projects [\"build-system\"] section and the selected import method disagree on the build-backend value (found ").data
      ++ a.data ++ (", expected ").data,
      ("), do not know how to proceed.").data, ?_⟩
    simp [msg_backend_conflict, String.data_append]

theorem reconcile_conflict
    (p1 bsd bs : List (String × Toml)) (cbs : List String) (a b : String) (rv : Toml)
    (hbs1 : lookupKey p1 "build-system" = some (Toml.table bs cbs))
    (hbsreq : containsKey bs "requires" = true)
    (hbsback : lookupKey bs "build-backend" = some (Toml.str a))
    (hbsd_back : lookupKey bsd "build-backend" = some (Toml.str b))
    (hbsd_req : lookupKey bsd "build-requires" = some rv)
    (hne : a ≠ b) :
    reconcile_build_system p1 bsd false = BsOutcome.usageError (msg_backend_conflict a b) := by
  have hc : containsKey p1 "build-system" = true := by simp [containsKey, hbs1]
  have hcb : containsKey bs "build-backend" = true := by simp [containsKey, hbsback]
  have hbeq : tomlBeq (Toml.str a) (Toml.str b) = false := by simp [tomlBeq, hne]
  unfold reconcile_build_system
  simp [hc, hbs1, hbsd_back, hbsd_req, hbsreq, hcb, hbsback, hbeq, renderToml]

/-- C2: with an existing build-system table whose `build-backend` is the
string `a` (and a `requires` key present), `reset_backend = false`, and
an import supplying both `build-backend` (a different string `b`) and
`build-requires`, `do_import` stops with a usage error whose message
mentions both `a` and `b`, and the build-system table of the document is
left exactly as it was. -/
theorem do_import_backend_conflict
    (p pd st bs : List (String × Toml)) (cbs : List String)
    (convert : ImportOptions → List (String × Toml) × List (String × Toml))
    (options : Option ImportOptions) (a b : String) (rv : Toml) (M m : Nat)
    (hconv : convert (options.getD default_options) = (pd, st))
    (hreqs : lookupKey pd "-build-requires" = some rv)
    (hback : lookupKey pd "-build-backend" = some (Toml.str b))
    (hbs : lookupKey p "build-system" = some (Toml.table bs cbs))
    (hbsreq : containsKey bs "requires" = true)
    (hbsback : lookupKey bs "build-backend" = some (Toml.str a))
    (hne : a ≠ b)
    (hstage : (scaffold_and_merge p (extract_buildsystem pd).1 st).isSome = true) :
    (do_import p convert options false M m).error
      = some (ImpErr.usage (msg_backend_conflict a b)) ∧
    a.data <:+: (msg_backend_conflict a b).data ∧
    b.data <:+: (msg_backend_conflict a b).data ∧
    lookupKey (do_import p convert options false M m).pyproject "build-system"
      = some (Toml.table bs cbs) := by
  obtain ⟨p1, hp1⟩ := Option.isSome_iff_exists.mp hstage
  have hpre : lookupKey p1 "build-system" = some (Toml.table bs cbs) := by
    rw [scaffold_and_merge_preserves (by decide) (by decide) hp1, hbs]
  have hbsd := extract_buildsystem_lookups pd
  have hrec := reconcile_conflict p1 (extract_buildsystem pd).2 bs cbs a b rv hpre hbsreq hbsback
      (by rw [hbsd.2, hback]) (by rw [hbsd.1, hreqs]) hne
  have hdo : do_import p convert options false M m
      = ⟨p1, [], [], options.getD default_options,
          some (ImpErr.usage (msg_backend_conflict a b))⟩ := by
    simp only [do_import, hconv, hp1, hrec]
  refine ⟨by rw [hdo], (msg_backend_conflict_mentions a b).1,
    (msg_backend_conflict_mentions a b).2, by rw [hdo]; exact hpre⟩

/-- Closed instance of C2: existing backend "A", imported backend "B"
with imported build requirements; the run errors with the conflict and
the build-system table is unchanged. -/
theorem do_import_backend_conflict_witness :
    (do_import
        [("build-system", Toml.table
          [("requires", Toml.arr ["a>=1"]), ("build-backend", Toml.str "A")] [])]
        (fun _ => ([("-build-requires", Toml.arr ["x>=1"]),
                    ("-build-backend", Toml.str "B")], []))
        none false 3 11).error
      = some (ImpErr.usage (msg_backend_conflict "A" "B")) ∧
    "A".data <:+: (msg_backend_conflict "A" "B").data ∧
    "B".data <:+: (msg_backend_conflict "A" "B").data ∧
    lookupKey (do_import
        [("build-system", Toml.table
          [("requires", Toml.arr ["a>=1"]), ("build-backend", Toml.str "A")] [])]
        (fun _ => ([("-build-requires", Toml.arr ["x>=1"]),
                    ("-build-backend", Toml.str "B")], []))
        none false 3 11).pyproject "build-system"
      = some (Toml.table
          [("requires", Toml.arr ["a>=1"]), ("build-backend", Toml.str "A")] []) := by
  apply do_import_backend_conflict
  · rfl
  · rfl
  · rfl
  · rfl
  · rfl
  · rfl
  · decide
  · simp [scaffold_and_merge, scaffold_tool, normalize_build, scaffold_project,
      merge_into_key, merge_into_tool_pdm, extract_buildsystem, popKey, lookupKey,
      setKey, containsKey, mergeItems]

/-! ## C3: no existing build-system table -/

theorem merge_into_key_table {p input p' : List (String × Toml)} {key : String}
    (h : merge_into_key p key input = some p') :
    ∃ items cs, lookupKey p key = some (Toml.table items cs) ∧
      lookupKey p' key = some (Toml.table (mergeItems items input) cs) := by
  unfold merge_into_key at h
  split at h
  · rename_i items cs heq
    cases h
    exact ⟨items, cs, heq, lookup_setKey_self _ _ _⟩
  · cases h

theorem scaffold_and_merge_project_table {p pd st p1 : List (String × Toml)}
    (h : scaffold_and_merge p pd st = some p1) :
    ∃ pr prCs, lookupKey p1 "project" = some (Toml.table pr prCs) := by
  unfold scaffold_and_merge at h
  rcases Option.bind_eq_some.mp h with ⟨a, ha, h⟩
  rcases Option.bind_eq_some.mp h with ⟨b, hb, h⟩
  rcases Option.bind_eq_some.mp h with ⟨c, hc, h⟩
  obtain ⟨items, cs, hlk, hlk2⟩ := merge_into_key_table hc
  exact ⟨_, _, (merge_into_tool_pdm_preserves (by decide) h).trans hlk2⟩

theorem requires_python_ok {p pr : List (String × Toml)} {prCs : List String}
    (M m : Nat) (h : lookupKey p "project" = some (Toml.table pr prCs)) :
    ∃ p3 es calls, requires_python_step p M m = PyOutcome.ok p3 es calls := by
  unfold requires_python_step
  rw [h]
  by_cases hc : containsKey pr "requires-python" = true
  · exact ⟨p, [], [], by simp [hc]⟩
  · exact ⟨setKey p "project" (Toml.table
        (setKey pr "requires-python" (Toml.str (">=" ++ python_version_string M m))) prCs),
      [msg_requires_python (python_version_string M m)], [true], by simp [hc]⟩

theorem reconcile_no_bs_missing (p1 bsd : List (String × Toml))
    (hbs : lookupKey p1 "build-system" = none)
    (hmiss : lookupKey bsd "build-backend" = none ∨ lookupKey bsd "build-requires" = none) :
    reconcile_build_system p1 bsd false = BsOutcome.usageError msg_fill_manually := by
  have hc : containsKey p1 "build-system" = false := by simp [containsKey, hbs]
  unfold reconcile_build_system
  rcases hmiss with h | h
  · simp [hc, h]
  · cases hb : lookupKey bsd "build-backend" <;> simp [hc, h, hb]

theorem reconcile_no_bs_create (p1 bsd : List (String × Toml)) (backend reqs : Toml)
    (hbs : lookupKey p1 "build-system" = none)
    (hb : lookupKey bsd "build-backend" = some backend)
    (hr : lookupKey bsd "build-requires" = some reqs) :
    reconcile_build_system p1 bsd false = BsOutcome.ok
      (setKey p1 "build-system" (Toml.table
        [("requires", reqs), ("build-backend", backend)] []))
      [msg_build_deps (renderToml reqs), msg_build_backend (renderToml backend)] := by
  have hpybs : mergeItems [] [("requires", reqs), ("build-backend", backend)]
      = [("requires", reqs), ("build-backend", backend)] := by
    simp [mergeItems, mergeKey]
  have hc : containsKey p1 "build-system" = false := by simp [containsKey, hbs]
  unfold reconcile_build_system
  simp [hc, hb, hr, hpybs, lookupKey]

theorem msg_fill_manually_mentions :
    ("please fill it manually").data <:+: msg_fill_manually.data := by
  refine ⟨("Can not create [\"build-system\"] section in pyproject.toml with selected import method, ").data,
    (".").data, ?_⟩
  rfl

/-- C3: with no existing build-system table and `reset_backend = false`:
if the imported build-system data does not supply both `build-backend` and
`build-requires` (for example only `build-backend`), `do_import` stops with
the usage error instructing the user to fill the build-system section
manually; if it supplies both, the run completes, a new build-system table
holding exactly those two values is created, and the two notices naming the
new requires list and the new backend are echoed. -/
theorem do_import_no_build_system
    (p pd st : List (String × Toml))
    (convert : ImportOptions → List (String × Toml) × List (String × Toml))
    (options : Option ImportOptions) (M m : Nat)
    (hconv : convert (options.getD default_options) = (pd, st))
    (hnobs : lookupKey p "build-system" = none)
    (hstage : (scaffold_and_merge p (extract_buildsystem pd).1 st).isSome = true) :
    ((lookupKey (extract_buildsystem pd).2 "build-backend" = none ∨
      lookupKey (extract_buildsystem pd).2 "build-requires" = none) →
      (do_import p convert options false M m).error = some (ImpErr.usage msg_fill_manually) ∧
      ("please fill it manually").data <:+: msg_fill_manually.data) ∧
    (∀ backend reqs,
      lookupKey (extract_buildsystem pd).2 "build-backend" = some backend →
      lookupKey (extract_buildsystem pd).2 "build-requires" = some reqs →
      (do_import p convert options false M m).error = none ∧
      lookupKey (do_import p convert options false M m).pyproject "build-system"
        = some (Toml.table [("requires", reqs), ("build-backend", backend)] []) ∧
      msg_build_deps (renderToml reqs) ∈ (do_import p convert options false M m).echoes ∧
      msg_build_backend (renderToml backend) ∈ (do_import p convert options false M m).echoes) := by
  obtain ⟨p1, hp1⟩ := Option.isSome_iff_exists.mp hstage
  have hpre : lookupKey p1 "build-system" = none := by
    rw [scaffold_and_merge_preserves (by decide) (by decide) hp1, hnobs]
  constructor
  · intro hmiss
    have hrec := reconcile_no_bs_missing p1 (extract_buildsystem pd).2 hpre hmiss
    have hdo : do_import p convert options false M m
        = ⟨p1, [], [], options.getD default_options, some (ImpErr.usage msg_fill_manually)⟩ := by
      simp only [do_import, hconv, hp1, hrec]
    exact ⟨by rw [hdo], msg_fill_manually_mentions⟩
  · intro backend reqs hb hr
    have hrec := reconcile_no_bs_create p1 (extract_buildsystem pd).2 backend reqs hpre hb hr
    obtain ⟨pr, prCs, hproj⟩ := scaffold_and_merge_project_table hp1
    have hproj2 : lookupKey (setKey p1 "build-system" (Toml.table
        [("requires", reqs), ("build-backend", backend)] [])) "project"
        = some (Toml.table pr prCs) := by
      rw [lookup_setKey_ne _ _ _ _ (by decide), hproj]
    obtain ⟨p3, es2, calls, hstep⟩ := requires_python_ok M m hproj2
    have hdo : do_import p convert options false M m
        = ⟨p3, [msg_build_deps (renderToml reqs), msg_build_backend (renderToml backend)] ++ es2,
            calls, options.getD default_options, none⟩ := by
      simp only [do_import, hconv, hp1, hrec, hstep]
    refine ⟨by rw [hdo], ?_, ?_, ?_⟩
    · rw [hdo]
      show lookupKey p3 "build-system" = _
      rw [requires_python_preserves (by decide) hstep, lookup_setKey_self]
    · rw [hdo]
      simp
    · rw [hdo]
      simp

/-- Closed instance of C3 (error leg): no build-system table, import
supplies only a backend; the run errors with the manual-fill message. -/
theorem do_import_no_build_system_witness :
    (do_import [] (fun _ => ([("-build-backend", Toml.str "setuptools.build_meta")], []))
        none false 3 11).error = some (ImpErr.usage msg_fill_manually) := by
  have h := do_import_no_build_system []
      [("-build-backend", Toml.str "setuptools.build_meta")] []
      (fun _ => ([("-build-backend", Toml.str "setuptools.build_meta")], [])) none 3 11
      rfl rfl
      (by simp [scaffold_and_merge, scaffold_tool, normalize_build, scaffold_project,
        merge_into_key, merge_into_tool_pdm, extract_buildsystem, popKey, lookupKey,
        setKey, containsKey, mergeItems])
  exact (h.1 (Or.inr rfl)).1

/-! ## C4 and C5: branch (c) dedup-and-append -/

theorem mergeKey_present (t : List (String × Toml)) (k : String) (v v0 : Toml)
    (h : lookupKey t k = some v0) :
    lookupKey (mergeKey t k v) k = some (mergeValue v0 v) := by
  induction t with
  | nil => simp [lookupKey] at h
  | cons hd tl ih =>
      obtain ⟨k0, w⟩ := hd
      by_cases hk : k0 = k
      · subst hk
        simp [lookupKey] at h
        simp [mergeKey, lookupKey, h]
      · simp [lookupKey, hk] at h
        simp [mergeKey, lookupKey, hk, ih h]

theorem mergeKey_ne (t : List (String × Toml)) (k k2 : String) (v : Toml)
    (h : k2 ≠ k) : lookupKey (mergeKey t k v) k2 = lookupKey t k2 := by
  induction t with
  | nil => simp [mergeKey, lookupKey, Ne.symm h]
  | cons hd tl ih =>
      obtain ⟨k0, w⟩ := hd
      by_cases hk : k0 = k
      · subst hk
        simp [mergeKey, lookupKey, Ne.symm h]
      · by_cases hq : k0 = k2 <;> simp [mergeKey, lookupKey, hk, hq, ih, h]

theorem mergeItems_single (bs : List (String × Toml)) (k : String) (v : Toml) :
    mergeItems bs [(k, v)] = mergeKey bs k v := by
  simp [mergeItems]

/-- Evaluation of branch (c) of the reconciliation: existing complete
build-system table with matching backend, import supplying both fields. -/
theorem reconcile_branch_c
    (p bsd bs : List (String × Toml)) (cbs : List String) (bk : String)
    (old L : List String)
    (hbs : lookupKey p "build-system" = some (Toml.table bs cbs))
    (hreq : lookupKey bs "requires" = some (Toml.arr old))
    (hback : lookupKey bs "build-backend" = some (Toml.str bk))
    (hbsd_b : lookupKey bsd "build-backend" = some (Toml.str bk))
    (hbsd_r : lookupKey bsd "build-requires" = some (Toml.arr L)) :
    reconcile_build_system p bsd false =
      if (build_req_new old L).isEmpty then BsOutcome.ok p []
      else BsOutcome.ok (setKey p "build-system" (Toml.table
          (mergeItems bs [("requires", Toml.arr (build_req_new old L))]) cbs))
        [msg_build_deps (renderToml ((lookupKey
          (mergeItems bs [("requires", Toml.arr (build_req_new old L))])
          "requires").getD (Toml.arr [])))] := by
  have hc : containsKey p "build-system" = true := by simp [containsKey, hbs]
  have hcr : containsKey bs "requires" = true := by simp [containsKey, hreq]
  have hcb : containsKey bs "build-backend" = true := by simp [containsKey, hback]
  have hbeq : tomlBeq (Toml.str bk) (Toml.str bk) = true := by simp [tomlBeq]
  unfold reconcile_build_system
  simp [hc, hbs, hbsd_b, hbsd_r, hcr, hcb, hback, hbeq, hreq]

theorem mem_build_req_new (old L : List String) (r : String) (hr : r ∈ L) :
    r ∈ build_req_new old L ↔ ¬ ∃ e ∈ old, req_get_stem e = req_get_stem r := by
  simp [build_req_new, List.mem_filter, hr, List.any_eq_true]

/-- C4: in branch (c) (`reset_backend = false`, existing complete
build-system table with matching backend, import supplying both fields)
an imported build requirement survives if and only if no existing entry of
`requires` has an equal stem; the surviving ones (in their import order)
are appended after the existing `requires` list, whose entries are neither
removed, reordered nor updated; every other build-system field and every
other manifest key is unchanged. -/
theorem reconcile_branch_c_dedup_append
    (p bsd bs : List (String × Toml)) (cbs : List String) (bk : String)
    (old L : List String)
    (hbs : lookupKey p "build-system" = some (Toml.table bs cbs))
    (hreq : lookupKey bs "requires" = some (Toml.arr old))
    (hback : lookupKey bs "build-backend" = some (Toml.str bk))
    (hbsd_b : lookupKey bsd "build-backend" = some (Toml.str bk))
    (hbsd_r : lookupKey bsd "build-requires" = some (Toml.arr L)) :
    ∃ added p' bs1 es,
      reconcile_build_system p bsd false = BsOutcome.ok p' es ∧
      added.Sublist L ∧
      (∀ r, r ∈ L → (r ∈ added ↔ ¬ ∃ e ∈ old, req_get_stem e = req_get_stem r)) ∧
      lookupKey p' "build-system" = some (Toml.table bs1 cbs) ∧
      lookupKey bs1 "requires" = some (Toml.arr (old ++ added)) ∧
      (∀ k, k ≠ "requires" → lookupKey bs1 k = lookupKey bs k) ∧
      (∀ k, k ≠ "build-system" → lookupKey p' k = lookupKey p k) := by
  have hev := reconcile_branch_c p bsd bs cbs bk old L hbs hreq hback hbsd_b hbsd_r
  by_cases hE : (build_req_new old L).isEmpty = true
  · have hnil : build_req_new old L = [] := by
      simpa [List.isEmpty_iff] using hE
    refine ⟨build_req_new old L, p, bs, [], ?_, ?_, ?_, hbs, ?_, ?_, ?_⟩
    · rw [hev, if_pos hE]
    · exact List.Sublist.trans (by rw [hnil]) (List.nil_sublist L) |>.trans (List.Sublist.refl L)
    · exact fun r hr => mem_build_req_new old L r hr
    · rw [hnil]
      simpa using hreq
    · intro k hk
      rfl
    · intro k hk
      rfl
  · refine ⟨build_req_new old L,
      setKey p "build-system" (Toml.table
        (mergeItems bs [("requires", Toml.arr (build_req_new old L))]) cbs),
      mergeItems bs [("requires", Toml.arr (build_req_new old L))],
      [msg_build_deps (renderToml ((lookupKey
        (mergeItems bs [("requires", Toml.arr (build_req_new old L))])
        "requires").getD (Toml.arr [])))], ?_, ?_, ?_, ?_, ?_, ?_, ?_⟩
    · rw [hev, if_neg hE]
    · exact List.filter_sublist L
    · exact fun r hr => mem_build_req_new old L r hr
    · exact lookup_setKey_self _ _ _
    · rw [mergeItems_single, mergeKey_present bs "requires" _ _ hreq]
      simp [mergeValue]
    · intro k hk
      rw [mergeItems_single]
      exact mergeKey_ne _ _ _ _ hk
    · intro k hk
      exact lookup_setKey_ne _ _ _ _ hk

/-- Closed instance of C4: one existing requirement, an import with one
stem-equal requirement (skipped) and one new requirement (appended). -/
theorem reconcile_branch_c_dedup_append_witness :
    ∃ added p' bs1 es,
      reconcile_build_system
          [("build-system", Toml.table [("requires", Toml.arr ["setuptools>=40"]),
            ("build-backend", Toml.str "setuptools.build_meta")] [])]
          [("build-requires", Toml.arr ["setuptools>=61", "wheel"]),
            ("build-backend", Toml.str "setuptools.build_meta")]
          false = BsOutcome.ok p' es ∧
      added.Sublist ["setuptools>=61", "wheel"] ∧
      (∀ r, r ∈ ["setuptools>=61", "wheel"] →
        (r ∈ added ↔ ¬ ∃ e ∈ ["setuptools>=40"], req_get_stem e = req_get_stem r)) ∧
      lookupKey p' "build-system" = some (Toml.table bs1 []) ∧
      lookupKey bs1 "requires" = some (Toml.arr (["setuptools>=40"] ++ added)) ∧
      (∀ k, k ≠ "requires" → lookupKey bs1 k
        = lookupKey [("requires", Toml.arr ["setuptools>=40"]),
            ("build-backend", Toml.str "setuptools.build_meta")] k) ∧
      (∀ k, k ≠ "build-system" → lookupKey p' k
        = lookupKey [("build-system", Toml.table [("requires", Toml.arr ["setuptools>=40"]),
            ("build-backend", Toml.str "setuptools.build_meta")] [])] k) :=
  reconcile_branch_c_dedup_append _ _ _ [] "setuptools.build_meta"
    ["setuptools>=40"] ["setuptools>=61", "wheel"] rfl rfl rfl rfl rfl

/-- C5: branch (c) reconciliation is idempotent: a second reconciliation of
the same imported `build-requires` list against the document produced by
the first leaves the document (in particular its final `requires` list)
unchanged and echoes nothing, since after the first run every imported stem
is already present. -/
theorem reconcile_branch_c_idempotent
    (p bsd bs : List (String × Toml)) (cbs : List String) (bk : String)
    (old L : List String) (p1 : List (String × Toml)) (e1 : List String)
    (hbs : lookupKey p "build-system" = some (Toml.table bs cbs))
    (hreq : lookupKey bs "requires" = some (Toml.arr old))
    (hback : lookupKey bs "build-backend" = some (Toml.str bk))
    (hbsd_b : lookupKey bsd "build-backend" = some (Toml.str bk))
    (hbsd_r : lookupKey bsd "build-requires" = some (Toml.arr L))
    (h1 : reconcile_build_system p bsd false = BsOutcome.ok p1 e1) :
    reconcile_build_system p1 bsd false = BsOutcome.ok p1 [] := by
  have hev := reconcile_branch_c p bsd bs cbs bk old L hbs hreq hback hbsd_b hbsd_r
  have hcov : ∀ r ∈ L, ∃ e ∈ old ++ build_req_new old L,
      req_get_stem e = req_get_stem r := by
    intro r hr
    by_cases hm : ∃ e ∈ old, req_get_stem e = req_get_stem r
    · obtain ⟨e, he, hey⟩ := hm
      exact ⟨e, List.mem_append_left _ he, hey⟩
    · exact ⟨r, List.mem_append_right _ ((mem_build_req_new old L r hr).mpr hm), rfl⟩
  have hall : (build_req_new (old ++ build_req_new old L) L).isEmpty = true := by
    rw [List.isEmpty_iff]
    show List.filter (fun r => !((old ++ build_req_new old L).any
      (fun e => req_get_stem e == req_get_stem r))) L = []
    rw [List.filter_eq_nil_iff]
    intro r hr
    obtain ⟨e, he, hey⟩ := hcov r hr
    have hany : ((old ++ build_req_new old L).any
        (fun e => req_get_stem e == req_get_stem r)) = true := by
      rw [List.any_eq_true]
      exact ⟨e, he, by simp [hey]⟩
    simp [hany]
  by_cases hE : (build_req_new old L).isEmpty = true
  · rw [hev, if_pos hE] at h1
    cases h1
    rw [hev, if_pos hE]
  · rw [hev, if_neg hE] at h1
    cases h1
    have hbs1 : lookupKey (setKey p "build-system" (Toml.table
        (mergeItems bs [("requires", Toml.arr (build_req_new old L))]) cbs)) "build-system"
        = some (Toml.table (mergeItems bs [("requires", Toml.arr (build_req_new old L))]) cbs) :=
      lookup_setKey_self _ _ _
    have hreq1 : lookupKey (mergeItems bs [("requires", Toml.arr (build_req_new old L))])
        "requires" = some (Toml.arr (old ++ build_req_new old L)) := by
      rw [mergeItems_single, mergeKey_present bs "requires" _ _ hreq]
      simp [mergeValue]
    have hback1 : lookupKey (mergeItems bs [("requires", Toml.arr (build_req_new old L))])
        "build-backend" = some (Toml.str bk) := by
      rw [mergeItems_single, mergeKey_ne _ _ _ _ (by decide)]
      exact hback
    have hev2 := reconcile_branch_c _ bsd _ cbs bk (old ++ build_req_new old L) L
      hbs1 hreq1 hback1 hbsd_b hbsd_r
    rw [hev2, if_pos hall]

/-- Closed instance of C5: the imported requirement shares its stem with
the existing one, so the first branch (c) run already changes nothing and
the second run returns the same document with no notices. -/
theorem reconcile_branch_c_idempotent_witness :
    reconcile_build_system
        [("build-system", Toml.table [("requires", Toml.arr ["setuptools>=40"]),
          ("build-backend", Toml.str "setuptools.build_meta")] [])]
        [("build-requires", Toml.arr ["setuptools>=61"]),
          ("build-backend", Toml.str "setuptools.build_meta")] false
      = BsOutcome.ok [("build-system", Toml.table [("requires", Toml.arr ["setuptools>=40"]),
          ("build-backend", Toml.str "setuptools.build_meta")] [])] [] := by
  have h1 : reconcile_build_system
      [("build-system", Toml.table [("requires", Toml.arr ["setuptools>=40"]),
        ("build-backend", Toml.str "setuptools.build_meta")] [])]
      [("build-requires", Toml.arr ["setuptools>=61"]),
        ("build-backend", Toml.str "setuptools.build_meta")] false
      = BsOutcome.ok [("build-system", Toml.table [("requires", Toml.arr ["setuptools>=40"]),
        ("build-backend", Toml.str "setuptools.build_meta")] [])] [] := by
    rw [reconcile_branch_c
      [("build-system", Toml.table [("requires", Toml.arr ["setuptools>=40"]),
        ("build-backend", Toml.str "setuptools.build_meta")] [])]
      [("build-requires", Toml.arr ["setuptools>=61"]),
        ("build-backend", Toml.str "setuptools.build_meta")]
      [("requires", Toml.arr ["setuptools>=40"]),
        ("build-backend", Toml.str "setuptools.build_meta")]
      [] "setuptools.build_meta" ["setuptools>=40"] ["setuptools>=61"] rfl rfl rfl rfl rfl]
    rw [if_pos (by decide)]
  exact reconcile_branch_c_idempotent
    [("build-system", Toml.table [("requires", Toml.arr ["setuptools>=40"]),
      ("build-backend", Toml.str "setuptools.build_meta")] [])]
    [("build-requires", Toml.arr ["setuptools>=61"]),
      ("build-backend", Toml.str "setuptools.build_meta")]
    [("requires", Toml.arr ["setuptools>=40"]),
      ("build-backend", Toml.str "setuptools.build_meta")]
    [] "setuptools.build_meta" ["setuptools>=40"] ["setuptools>=61"]
    [("build-system", Toml.table [("requires", Toml.arr ["setuptools>=40"]),
      ("build-backend", Toml.str "setuptools.build_meta")] [])]
    [] rfl rfl rfl rfl rfl h1

/-! ## C9: the scaffolding invariant -/

theorem merge_into_tool_pdm_shape {p st p' : List (String × Toml)}
    (h : merge_into_tool_pdm p st = some p') :
    ∃ ti tc pi pc, lookupKey p "tool" = some (Toml.table ti tc) ∧
      lookupKey ti "pdm" = some (Toml.table pi pc) ∧
      lookupKey p' "tool" = some (Toml.table (setKey ti "pdm"
        (Toml.table (mergeItems pi st) pc)) tc) := by
  unfold merge_into_tool_pdm at h
  split at h
  · rename_i ti tc heq
    split at h
    · rename_i pi pc heq2
      cases h
      exact ⟨ti, tc, pi, pc, heq, heq2, lookup_setKey_self _ _ _⟩
    · cases h
  · cases h

theorem scaffold_tool_creates {p a : List (String × Toml)}
    (h : scaffold_tool p = some a)
    (habs : lookupKey p "tool" = none ∨
      (∃ ti tc, lookupKey p "tool" = some (Toml.table ti tc) ∧ lookupKey ti "pdm" = none)) :
    ∃ A tcA, lookupKey a "tool" = some (Toml.table A tcA) ∧
      lookupKey A "pdm" = some (Toml.table [] []) := by
  unfold scaffold_tool at h
  rcases habs with hnone | ⟨ti, tc, htool, hpdm⟩
  · rw [hnone] at h
    cases h
    exact ⟨[("pdm", Toml.table [] [])], [], lookup_setKey_self _ _ _, by simp [lookupKey]⟩
  · have hcb : containsKey ti "pdm" = false := by simp [containsKey, hpdm]
    simp only [htool, hcb] at h
    simp at h
    cases h
    exact ⟨setKey ti "pdm" (Toml.table [] []), tc, lookup_setKey_self _ _ _,
      lookup_setKey_self _ _ _⟩

theorem normalize_build_id {p A : List (String × Toml)} {tcA : List String}
    (htool : lookupKey p "tool" = some (Toml.table A tcA))
    (hpdm : lookupKey A "pdm" = some (Toml.table [] [])) :
    normalize_build p = some p := by
  simp [normalize_build, htool, hpdm, lookupKey]

theorem scaffold_and_merge_shape {p pd st p1 : List (String × Toml)}
    (h : scaffold_and_merge p pd st = some p1) :
    ∃ prItems prCs tItems tCs pdmItems pdmCs,
      lookupKey p1 "project" = some (Toml.table prItems prCs) ∧
      lookupKey p1 "tool" = some (Toml.table tItems tCs) ∧
      lookupKey tItems "pdm" = some (Toml.table pdmItems pdmCs) ∧
      (lookupKey p "project" = none → prCs = project_comments) ∧
      ((lookupKey p "tool" = none ∨
        (∃ ti tc, lookupKey p "tool" = some (Toml.table ti tc) ∧ lookupKey ti "pdm" = none)) →
        pdmItems = mergeItems [] st) := by
  unfold scaffold_and_merge at h
  rcases Option.bind_eq_some.mp h with ⟨a, ha, h⟩
  rcases Option.bind_eq_some.mp h with ⟨b, hb, h⟩
  rcases Option.bind_eq_some.mp h with ⟨c, hc, h⟩
  obtain ⟨items, cs, hlook, hlook2⟩ := merge_into_key_table hc
  have hproj1 : lookupKey p1 "project" = some (Toml.table (mergeItems items pd) cs) :=
    (merge_into_tool_pdm_preserves (by decide) h).trans hlook2
  obtain ⟨ti, tc, pi, pc, htool_c, hpdm_c, htool_p1⟩ := merge_into_tool_pdm_shape h
  refine ⟨mergeItems items pd, cs, setKey ti "pdm" (Toml.table (mergeItems pi st) pc), tc,
    mergeItems pi st, pc, hproj1, htool_p1, lookup_setKey_self _ _ _, ?_, ?_⟩
  · intro hnone
    have h1 : lookupKey a "project" = none :=
      (scaffold_tool_preserves (by decide) ha).trans hnone
    have h2 : lookupKey b "project" = none :=
      (normalize_build_preserves (by decide) hb).trans h1
    have hcb : containsKey b "project" = false := by simp [containsKey, h2]
    have h3 : lookupKey (scaffold_project b) "project"
        = some (Toml.table [] project_comments) := by
      simp [scaffold_project, hcb, lookup_setKey_self]
    have h4 := Option.some.inj (hlook.symm.trans h3)
    simp only [Toml.table.injEq] at h4
    exact h4.2
  · intro habs
    obtain ⟨A, tcA, htoolA, hpdmA⟩ := scaffold_tool_creates ha habs
    have hbid : normalize_build a = some a := normalize_build_id htoolA hpdmA
    have hab : b = a := Option.some.inj (hb.symm.trans hbid)
    subst hab
    have htool_c2 : lookupKey c "tool" = some (Toml.table A tcA) := by
      rw [merge_into_key_preserves (by decide) hc, scaffold_project_preserves b (by decide),
        htoolA]
    have h5 := Option.some.inj (htool_c.symm.trans htool_c2)
    simp only [Toml.table.injEq] at h5
    obtain ⟨rfl, rfl⟩ := h5
    have h6 := Option.some.inj (hpdm_c.symm.trans hpdmA)
    simp only [Toml.table.injEq] at h6
    obtain ⟨rfl, rfl⟩ := h6
    rfl

theorem requires_python_project_shape {p p' : List (String × Toml)} {M m : Nat}
    {es : List String} {calls : List Bool}
    (h : requires_python_step p M m = PyOutcome.ok p' es calls)
    (pr : List (String × Toml)) (prCs : List String)
    (hpr : lookupKey p "project" = some (Toml.table pr prCs)) :
    ∃ pr', lookupKey p' "project" = some (Toml.table pr' prCs) := by
  unfold requires_python_step at h
  rw [hpr] at h
  by_cases hcp : containsKey pr "requires-python" = true
  · simp only [hcp] at h
    simp at h
    obtain ⟨rfl, -, -⟩ := h
    exact ⟨pr, hpr⟩
  · simp only [hcp] at h
    simp at h
    obtain ⟨rfl, -, -⟩ := h
    exact ⟨_, lookup_setKey_self _ _ _⟩

/-- C9: after every completed `do_import` run the manifest has a `project`
table and a `tool.pdm` table; when the `project` table was absent
beforehand it was created carrying the two explanatory comment lines, and
when `tool` (or `tool.pdm` inside an existing `tool` table) was absent,
`tool.pdm` was created as an empty table (so it ends up holding exactly the
merged settings) — none of these absences is an error. -/
theorem do_import_scaffolding
    (p pd0 st : List (String × Toml))
    (convert : ImportOptions → List (String × Toml) × List (String × Toml))
    (options : Option ImportOptions) (reset : Bool) (M m : Nat)
    (hconv : convert (options.getD default_options) = (pd0, st))
    (hsucc : (do_import p convert options reset M m).error = none) :
    ∃ prItems prCs tItems tCs pdmItems pdmCs,
      lookupKey (do_import p convert options reset M m).pyproject "project"
        = some (Toml.table prItems prCs) ∧
      lookupKey (do_import p convert options reset M m).pyproject "tool"
        = some (Toml.table tItems tCs) ∧
      lookupKey tItems "pdm" = some (Toml.table pdmItems pdmCs) ∧
      (lookupKey p "project" = none → prCs = project_comments) ∧
      ((lookupKey p "tool" = none ∨
        (∃ ti tc, lookupKey p "tool" = some (Toml.table ti tc) ∧ lookupKey ti "pdm" = none)) →
        pdmItems = mergeItems [] st) := by
  cases hs : scaffold_and_merge p (extract_buildsystem pd0).1 st with
  | none =>
      exfalso
      simp only [do_import, hconv, hs] at hsucc
      exact Option.noConfusion hsucc
  | some p1 =>
      cases hr : reconcile_build_system p1 (extract_buildsystem pd0).2 reset with
      | usageError msg =>
          exfalso
          simp only [do_import, hconv, hs, hr] at hsucc
          exact Option.noConfusion hsucc
      | typeError =>
          exfalso
          simp only [do_import, hconv, hs, hr] at hsucc
          exact Option.noConfusion hsucc
      | ok p2 es =>
          cases hp : requires_python_step p2 M m with
          | typeError =>
              exfalso
              simp only [do_import, hconv, hs, hr, hp] at hsucc
              exact Option.noConfusion hsucc
          | ok p3 es2 calls =>
              have hres : (do_import p convert options reset M m).pyproject = p3 := by
                simp only [do_import, hconv, hs, hr, hp]
              obtain ⟨prItems, prCs, tItems, tCs, pdmItems, pdmCs, h1, h2, h3, h4, h5⟩ :=
                scaffold_and_merge_shape hs
              have h1' : lookupKey p2 "project" = some (Toml.table prItems prCs) :=
                (reconcile_ok_preserves (by decide) hr).trans h1
              have h2' : lookupKey p2 "tool" = some (Toml.table tItems tCs) :=
                (reconcile_ok_preserves (by decide) hr).trans h2
              obtain ⟨pr', hpr'⟩ := requires_python_project_shape hp prItems prCs h1'
              have h2'' : lookupKey p3 "tool" = some (Toml.table tItems tCs) :=
                (requires_python_preserves (by decide) hp).trans h2'
              exact ⟨pr', prCs, tItems, tCs, pdmItems, pdmCs,
                by rw [hres]; exact hpr', by rw [hres]; exact h2'', h3, h4, h5⟩

/-- Closed instance of C9: an empty manifest (no project, no tool) and a
converter supplying only a project name; the run completes and the
scaffolded tables are present, the project table carrying the two comment
lines and `tool.pdm` holding the (empty) merged settings. -/
theorem do_import_scaffolding_witness :
    ∃ prItems prCs tItems tCs pdmItems pdmCs,
      lookupKey (do_import [] (fun _ => ([("name", Toml.str "pkg")], []))
          none true 3 8).pyproject "project" = some (Toml.table prItems prCs) ∧
      lookupKey (do_import [] (fun _ => ([("name", Toml.str "pkg")], []))
          none true 3 8).pyproject "tool" = some (Toml.table tItems tCs) ∧
      lookupKey tItems "pdm" = some (Toml.table pdmItems pdmCs) ∧
      (lookupKey [] "project" = none → prCs = project_comments) ∧
      ((lookupKey ([] : List (String × Toml)) "tool" = none ∨
        (∃ ti tc, lookupKey ([] : List (String × Toml)) "tool" = some (Toml.table ti tc) ∧
          lookupKey ti "pdm" = none)) →
        pdmItems = mergeItems [] []) :=
  do_import_scaffolding [] [("name", Toml.str "pkg")] []
    (fun _ => ([("name", Toml.str "pkg")], [])) none true 3 8 rfl
    (by simp [do_import, scaffold_and_merge, scaffold_tool, normalize_build, scaffold_project,
      merge_into_key, merge_into_tool_pdm, extract_buildsystem, popKey, lookupKey,
      setKey, containsKey, mergeItems, mergeKey, mergeValue, reconcile_build_system,
      requires_python_step])
